import Mathlib

/-!
Shallow embedding of the menu model, window-options validation and
background-color packing of the rust_minifb repository
(src/lib.rs and src/os/posix/common.rs), with theorems settling the
frozen claims about them.

Rust mutable-state methods are modelled by explicit state passing: a
method `fn f(&mut self, ...) -> T` becomes `f : Menu → ... → T × Menu`.
Machine integers (`u64` handles, `usize` ids, `u32` packed colors) are
modelled as `Nat`, with an explicit `% 2 ^ w` exactly where the Rust
performs a wrapping cast or a wrapping increment.
-/

namespace Minifb

/-- Modelled from the spec: the `Key` enumeration lives in `src/key.rs`,
which is not part of the provided sources; the spec describes it as a
closed enumeration of keys with an `Unknown` sentinel.  Only
`Key::Unknown` is ever used by the code under verification
(`common.rs` and `MenuItem::default`), so a representative closed
enumeration with the `Unknown` sentinel suffices. -/
inductive Key where
  | A
  | B
  | Down
  | Escape
  | F1
  | LeftShift
  | Unknown
deriving DecidableEq

/-- `bitflags! { pub struct Modifiers: u32 { ... } }` from src/lib.rs:
a bit-set backed by a `u32`. -/
structure Modifiers where
  bits : Nat
deriving DecidableEq

namespace Modifiers

/-- `const SHIFT = 0b0001` -/
def SHIFT : Modifiers := ⟨0b0001⟩

/-- `const CTRL = 0b0010` -/
def CTRL : Modifiers := ⟨0b0010⟩

/-- `const ALT = 0b0100` -/
def ALT : Modifiers := ⟨0b0100⟩

/-- `const LOGO = 0b1000` -/
def LOGO : Modifiers := ⟨0b1000⟩

/-- `Modifiers::empty()` from the bitflags crate: no bits set. -/
def empty : Modifiers := ⟨0⟩

/-- Bitflags union: bitwise or of the backing bits. -/
def union (a b : Modifiers) : Modifiers := ⟨a.bits ||| b.bits⟩

/-- `Modifiers::intersects` from the bitflags crate:
true when the two sets share at least one bit. -/
def intersects (a b : Modifiers) : Bool := (a.bits &&& b.bits) != 0

/-- `pub const fn shift(self) -> bool { self.intersects(Self::SHIFT) }` -/
def shift (m : Modifiers) : Bool := m.intersects SHIFT

/-- `pub const fn ctrl(self) -> bool { self.intersects(Self::CTRL) }` -/
def ctrl (m : Modifiers) : Bool := m.intersects CTRL

/-- `pub const fn alt(self) -> bool { self.intersects(Self::ALT) }` -/
def alt (m : Modifiers) : Bool := m.intersects ALT

/-- `pub const fn logo(self) -> bool { self.intersects(Self::LOGO) }` -/
def logo (m : Modifiers) : Bool := m.intersects LOGO

end Modifiers

/-- `const MENU_ID_SEPARATOR: usize = 0xffffffff;` from src/lib.rs. -/
def MENU_ID_SEPARATOR : Nat := 0xffffffff

/-- `pub struct MenuHandle(pub u64);` from src/lib.rs. -/
structure MenuHandle where
  val : Nat
deriving DecidableEq

/-- `pub struct MenuItemHandle(pub u64);` from src/lib.rs. -/
structure MenuItemHandle where
  val : Nat
deriving DecidableEq

/-- `pub struct PosixMenuItem` from src/lib.rs, generic in the menu type
so that `PosixMenu` can nest inside it (`sub_menu: Option<Box<PosixMenu>>`). -/
structure PosixMenuItemG (M : Type) where
  sub_menu : Option M
  id : Nat
  label : String
  enabled : Bool
  key : Key
  modifiers : Modifiers
  handle : MenuItemHandle

/-- `pub struct PosixMenu` from src/lib.rs: fields `name`, `items`,
`handle`, `item_counter` in declaration order. -/
inductive PosixMenu : Type where
  | mk (name : String) (items : List (PosixMenuItemG PosixMenu))
       (handle : MenuHandle) (item_counter : MenuItemHandle) : PosixMenu

/-- `pub struct PosixMenuItem` specialised to the actual menu type. -/
abbrev PosixMenuItem := PosixMenuItemG PosixMenu

/-- Field `name` of `PosixMenu`. -/
def PosixMenu.name : PosixMenu → String
  | .mk n _ _ _ => n

/-- Field `items` of `PosixMenu`. -/
def PosixMenu.items : PosixMenu → List PosixMenuItem
  | .mk _ i _ _ => i

/-- Field `handle` of `PosixMenu`. -/
def PosixMenu.handle : PosixMenu → MenuHandle
  | .mk _ _ h _ => h

/-- Field `item_counter` of `PosixMenu`. -/
def PosixMenu.item_counter : PosixMenu → MenuItemHandle
  | .mk _ _ _ c => c

/-- `pub struct Menu { pub internal: PosixMenu }` from
src/os/posix/common.rs.  The public `minifb::Menu(imp::Menu)` of
src/lib.rs is a transparent newtype over this and is identified with it. -/
structure Menu where
  internal : PosixMenu

/-- Modelled from the spec: the `Error` enum lives in `src/error.rs`,
which is not part of the provided sources; the spec's error taxonomy
names `WindowCreate`, `UpdateFailed`, `MenuCreate` and `MenuItemCreate`,
each carried as an explicit result value with a message
(`Error::WindowCreate(String)` as used by `Window::new` in src/lib.rs). -/
inductive Error where
  | WindowCreate (msg : String)
  | UpdateFailed (msg : String)
  | MenuCreate (msg : String)
  | MenuItemCreate (msg : String)

/-- `pub struct MenuItem<'a>` from src/lib.rs: the detached builder.
The `menu: Option<&'a mut Menu>` backing reference is modelled as an
optional menu value, with mutation through it made explicit in `build`. -/
structure MenuItem where
  id : Nat
  label : String
  enabled : Bool
  key : Key
  modifiers : Modifiers
  menu : Option Menu

/-- `impl Default for MenuItem` from src/lib.rs. -/
def MenuItem.default : MenuItem :=
  { id := MENU_ID_SEPARATOR
    label := ""
    enabled := true
    key := Key.Unknown
    modifiers := Modifiers.empty
    menu := none }

/-- `impl Clone for MenuItem` from src/lib.rs: clones every field but
sets `menu: None` on the copy. -/
def MenuItem.clone (mi : MenuItem) : MenuItem :=
  { mi with menu := none }

/-- `Menu::new` from src/os/posix/common.rs: always returns `Ok` of a
menu with empty items and both counters zero. -/
def Menu.new (name : String) : Except Error Menu :=
  .ok ⟨.mk name [] ⟨0⟩ ⟨0⟩⟩

/-- `Menu::next_item_handle` from src/os/posix/common.rs: returns the
current `item_counter` and post-increments it (a wrapping `u64`
increment). -/
def Menu.next_item_handle (m : Menu) : MenuItemHandle × Menu :=
  let handle := m.internal.item_counter
  (handle,
    ⟨.mk m.internal.name m.internal.items m.internal.handle
      ⟨(handle.val + 1) % 2 ^ 64⟩⟩)

/-- `Menu::add_sub_menu` from src/os/posix/common.rs: takes a fresh
handle and pushes a node whose `sub_menu` is `Some(Box::new(sub_menu.internal.clone()))`
— a deep copy of the other menu's tree at call time.  The node stores
the freshly returned handle. -/
def Menu.add_sub_menu (m : Menu) (name : String) (sub : Menu) : Menu :=
  let (handle, m) := m.next_item_handle
  ⟨.mk m.internal.name
    (m.internal.items ++
      [{ label := name
         handle := handle
         sub_menu := some sub.internal
         id := 0
         enabled := true
         key := Key.Unknown
         modifiers := Modifiers.empty }])
    m.internal.handle m.internal.item_counter⟩

/-- `Menu::add_menu_item` from src/os/posix/common.rs: takes a fresh
handle `item_handle`, then pushes a node whose stored `handle` field is
`self.internal.item_counter` — the counter value AFTER the increment,
one greater than the `item_handle` that is returned.  This mismatch is
faithful to the source. -/
def Menu.add_menu_item (m : Menu) (item : MenuItem) : MenuItemHandle × Menu :=
  let (item_handle, m) := m.next_item_handle
  (item_handle,
    ⟨.mk m.internal.name
      (m.internal.items ++
        [{ sub_menu := none
           handle := m.internal.item_counter
           id := item.id
           label := item.label
           enabled := item.enabled
           key := item.key
           modifiers := item.modifiers }])
      m.internal.handle m.internal.item_counter⟩)

/-- `Menu::remove_item` from src/os/posix/common.rs:
`self.internal.items.retain(|item| item.handle.0 != handle.0)` — keeps
every node whose stored handle differs from the argument. -/
def Menu.remove_item (m : Menu) (handle : MenuItemHandle) : Menu :=
  ⟨.mk m.internal.name
    (m.internal.items.filter (fun item => item.handle.val != handle.val))
    m.internal.handle m.internal.item_counter⟩

/-- `Menu::add_separator` from src/lib.rs: calls `add_menu_item` with
`MenuItem { id: MENU_ID_SEPARATOR, ..MenuItem::default() }`, discarding
the returned handle. -/
def Menu.add_separator (m : Menu) : Menu :=
  (m.add_menu_item { MenuItem.default with id := MENU_ID_SEPARATOR }).2

/-- `Menu::add_item` from src/lib.rs: returns a detached builder holding
the target menu (`menu: Some(self)`); nothing is inserted yet. -/
def Menu.add_item (m : Menu) (name : String) (id : Nat) : MenuItem :=
  { MenuItem.default with
      id := id
      label := name
      menu := some m }

/-- `MenuItem::build` from src/lib.rs: clones itself (the clone has
`menu: None`), then, if a backing menu is present, inserts via
`add_menu_item` and returns its handle; otherwise returns
`MenuItemHandle(0)` and inserts nothing.  The (possibly) mutated backing
menu is returned explicitly. -/
def MenuItem.build (mi : MenuItem) : MenuItemHandle × Option Menu :=
  match mi.menu with
  | some menu =>
      let (h, menu) := menu.add_menu_item mi.clone
      (h, some menu)
  | none => (⟨0⟩, none)

/-- `pub enum Scale` from src/lib.rs. -/
inductive Scale where
  | FitScreen
  | X1
  | X2
  | X4
  | X8
  | X16
  | X32
deriving DecidableEq

/-- `pub enum ScaleMode` from src/lib.rs. -/
inductive ScaleMode where
  | Stretch
  | AspectRatioStretch
  | Center
  | UpperLeft
deriving DecidableEq

/-- `pub struct WindowOptions` from src/lib.rs, fields in declaration
order; the Rust field `none: bool` is rendered `none_opt` (`none` is
taken in Lean). -/
structure WindowOptions where
  borderless : Bool
  title : Bool
  resize : Bool
  scale : Scale
  scale_mode : ScaleMode
  topmost : Bool
  transparency : Bool
  none_opt : Bool

/-- `impl Default for WindowOptions` from src/lib.rs. -/
def WindowOptions.default : WindowOptions :=
  { borderless := false
    title := true
    resize := false
    scale := Scale.X1
    scale_mode := ScaleMode.Stretch
    topmost := false
    transparency := false
    none_opt := false }

/-- `Window::new` from src/lib.rs: rejects `transparency` without
`borderless` with `Error::WindowCreate` before delegating to the
platform backend `imp::Window::new` (which is outside src/ and hence
kept abstract as the parameter `imp_new`; the `Window` newtype wrapper
`.map(Window)` is identified with the backend's result). -/
def Window.new {α : Type} (imp_new : String → Nat → Nat → WindowOptions → Except Error α)
    (name : String) (width height : Nat) (opts : WindowOptions) : Except Error α :=
  if opts.transparency && !opts.borderless then
    .error (.WindowCreate "Window transparency requires the borderless property")
  else
    imp_new name width height opts

/-- `pub fn clamp<T: PartialOrd>(low: T, value: T, high: T) -> T`
from src/lib.rs, instantiated at `usize` (`Nat`). -/
def clamp (low value high : Nat) : Nat :=
  if value < low then low
  else if value > high then high
  else value

/-- The argument `Window::set_background_color` (src/lib.rs) passes to
the backend: each channel clamped into `[0, 255]`, then
`((r << 16) | (g << 8) | b) as u32` — the cast to `u32` is the final
`% 2 ^ 32`. -/
def set_background_color_packed (red green blue : Nat) : Nat :=
  let r := clamp 0 red 255
  let g := clamp 0 green 255
  let b := clamp 0 blue 255
  (((r <<< 16) ||| (g <<< 8)) ||| b) % 2 ^ 32

/-- A single mutating menu operation, used to quantify over arbitrary
sequences of menu edits. -/
inductive MenuOp where
  | addMenuItem (item : MenuItem)
  | addSubMenu (name : String) (sub : Menu)
  | addSep
  | removeItem (handle : MenuItemHandle)

/-- Apply one `MenuOp` to a menu (discarding returned handles). -/
def Menu.applyOp (m : Menu) : MenuOp → Menu
  | .addMenuItem item => (m.add_menu_item item).2
  | .addSubMenu name sub => m.add_sub_menu name sub
  | .addSep => m.add_separator
  | .removeItem h => m.remove_item h

/-- Apply a sequence of `MenuOp`s left to right. -/
def Menu.applyOps (m : Menu) (ops : List MenuOp) : Menu :=
  ops.foldl Menu.applyOp m

/-! Concrete scenarios used to settle the claims on explicit inputs. -/

/-- A fresh menu named "m" (the value `Menu::new("m")` wraps in `Ok`). -/
def c1_m0 : Menu := ⟨.mk "m" [] ⟨0⟩ ⟨0⟩⟩

/-- Item "A" with id 1. -/
def c1_itemA : MenuItem := { MenuItem.default with id := 1, label := "A" }

/-- Item "B" with id 2. -/
def c1_itemB : MenuItem := { MenuItem.default with id := 2, label := "B" }

/-- First `add_menu_item` call of the C1 scenario. -/
def c1_step1 : MenuItemHandle × Menu := c1_m0.add_menu_item c1_itemA

/-- Second `add_menu_item` call of the C1 scenario. -/
def c1_step2 : MenuItemHandle × Menu := c1_step1.2.add_menu_item c1_itemB

/-- A fresh menu named "File". -/
def c2_m0 : Menu := ⟨.mk "File" [] ⟨0⟩ ⟨0⟩⟩

/-- `add_menu_item` of item "Open" with id 1. -/
def c2_step_open : MenuItemHandle × Menu :=
  c2_m0.add_menu_item { MenuItem.default with id := 1, label := "Open" }

/-- `add_menu_item` of item "Exit" with id 2. -/
def c2_step_exit : MenuItemHandle × Menu :=
  c2_step_open.2.add_menu_item { MenuItem.default with id := 2, label := "Exit" }

/-- `add_separator` after the two items. -/
def c2_m3 : Menu := c2_step_exit.2.add_separator

/-- `remove_item` with the handle that was returned for "Open". -/
def c2_m4 : Menu := c2_m3.remove_item c2_step_open.1

/-- A fresh menu named "m" for the C3 scenario. -/
def c3_m0 : Menu := ⟨.mk "m" [] ⟨0⟩ ⟨0⟩⟩

/-- A fresh menu named "S" used as a sub-menu. -/
def c3_sub : Menu := ⟨.mk "S" [] ⟨0⟩ ⟨0⟩⟩

/-- After one `add_menu_item` (stores handle 1, returns handle 0). -/
def c3_m1 : Menu := (c3_m0.add_menu_item { MenuItem.default with id := 7, label := "X" }).2

/-- After a further `add_sub_menu` (stores handle 1 as well). -/
def c3_m2 : Menu := c3_m1.add_sub_menu "S" c3_sub

/-- A fresh menu named "File" followed by one `add_separator`. -/
def c4_m : Menu := (⟨.mk "File" [] ⟨0⟩ ⟨0⟩⟩ : Menu).add_separator

/-- A fresh menu named "A" for the C5 witness. -/
def c5_m1 : Menu := ⟨.mk "A" [] ⟨0⟩ ⟨0⟩⟩

/-- A fresh menu named "B" for the C5 witness. -/
def c5_m2 : Menu := ⟨.mk "B" [] ⟨0⟩ ⟨0⟩⟩

/-- One subsequent mutation of the source menu for the C5 witness. -/
def c5_ops : List MenuOp := [MenuOp.addMenuItem MenuItem.default]

/-- A concrete platform backend for the C6 witness: accepts anything. -/
def c6_imp_new : String → Nat → Nat → WindowOptions → Except Error Unit :=
  fun _ _ _ _ => .ok ()

/-- Default options with `transparency: true` (and default
`borderless: false`). -/
def c6_opts : WindowOptions := { WindowOptions.default with transparency := true }

/-- A fresh menu named "w" for the C7 witness. -/
def c7_m : Menu := ⟨.mk "w" [] ⟨0⟩ ⟨0⟩⟩

/-- A fresh menu named "w" for the C10 witness. -/
def c10_m : Menu := ⟨.mk "w" [] ⟨0⟩ ⟨0⟩⟩

/-! Helper lemmas about `Nat` bitwise operations, shared by the
Modifiers and color-packing theorems. -/

/-- Bitwise and distributes over bitwise or on `Nat`. -/
theorem lor_land_distrib (x y c : Nat) :
    (x ||| y) &&& c = ((x &&& c) ||| (y &&& c)) := by
  apply Nat.eq_of_testBit_eq
  intro i
  simp [Nat.testBit_and, Nat.testBit_or, Bool.and_or_distrib_right]

/-- A bitwise or of naturals is zero iff both operands are. -/
theorem lor_eq_zero_iff (x y : Nat) : (x ||| y) = 0 ↔ x = 0 ∧ y = 0 := by
  constructor
  · intro h
    refine ⟨Nat.eq_of_testBit_eq fun i => ?_, Nat.eq_of_testBit_eq fun i => ?_⟩
    · have hb : (x ||| y).testBit i = false := by rw [h]; simp
      simp only [Nat.testBit_or, Bool.or_eq_false_iff] at hb
      simp [hb.1]
    · have hb : (x ||| y).testBit i = false := by rw [h]; simp
      simp only [Nat.testBit_or, Bool.or_eq_false_iff] at hb
      simp [hb.2]
  · rintro ⟨rfl, rfl⟩
    rfl

/-- Boolean version: a bitwise or is nonzero iff one operand is. -/
theorem lor_bne_zero (x y : Nat) :
    ((x ||| y) != 0) = ((x != 0) || (y != 0)) := by
  rw [Bool.eq_iff_iff]
  simp [lor_eq_zero_iff]
  tauto

/-- `clamp 0 v 255` on `Nat` is `min v 255`. -/
theorem clamp_eq_min (v : Nat) : clamp 0 v 255 = min v 255 := by
  unfold clamp
  split
  · omega
  · split <;> omega

/-- `clamp 0 v 255` never exceeds 255. -/
theorem clamp_le_255 (v : Nat) : clamp 0 v 255 ≤ 255 := by
  rw [clamp_eq_min]
  exact Nat.min_le_right v 255

/-- Claim C1 (code bug): on a fresh menu, two `add_menu_item` calls
return the distinct handles 0 and 1, but the nodes are stored with
handles 1 and 2 (one greater than returned), so `remove_item` with the
handle returned for item "B" in fact deletes item "A" and leaves "B" in
place — other items are NOT preserved and an item is NOT found by its
own returned handle. -/
theorem remove_by_returned_handle_removes_other_item :
    Menu.new "m" = .ok c1_m0
    ∧ c1_step1.1 = ⟨0⟩
    ∧ c1_step2.1 = ⟨1⟩
    ∧ c1_step2.2.internal.items.map (fun i => (i.label, i.handle.val))
        = [("A", 1), ("B", 2)]
    ∧ (c1_step2.2.remove_item c1_step2.1).internal.items.map (fun i => i.label)
        = ["B"] :=
  ⟨rfl, rfl, rfl, rfl, rfl⟩

/-- Claim C2 (code bug): in the scenario fresh "File" menu, add "Open"
id 1, add "Exit" id 2, add a separator, then `remove_item` with the
handle returned for "Open": the returned handle is 0, but the stored
handles are 1, 2, 3, so the removal matches nothing and the item list
is still `[Open(1), Exit(2), Separator]` — not the claimed
`[Exit(2), Separator]`. -/
theorem scenario_remove_open_leaves_open_in_place :
    c2_step_open.1 = ⟨0⟩
    ∧ c2_m4.internal.items.map (fun i => (i.label, i.id))
        = [("Open", 1), ("Exit", 2), ("", MENU_ID_SEPARATOR)] :=
  ⟨rfl, rfl⟩

/-- Claim C3 (code bug): after one `add_menu_item` (stores handle 1
although it returns 0) followed by one `add_sub_menu` (stores the
correctly returned handle 1), the menu holds two nodes carrying the SAME
stored handle 1, so stored handles are not unique within the menu; a
single `remove_item` with handle 1 then deletes both nodes at once. -/
theorem stored_handles_collide :
    c3_m2.internal.items.map (fun i => i.handle.val) = [1, 1]
    ∧ (c3_m2.remove_item ⟨1⟩).internal.items = [] :=
  ⟨rfl, rfl⟩

/-- Claim C4, counterexample: on a fresh "File" menu, `add_separator`
appends a node whose id is `MENU_ID_SEPARATOR` but whose `enabled` field
is `true`, not `false` as the claim states — `MenuItem::default()` sets
`enabled: true` and `add_separator` only overrides `id`. -/
theorem add_separator_node_is_enabled :
    c4_m.internal.items.map (fun i => (i.id, i.enabled))
      = [(MENU_ID_SEPARATOR, true)] :=
  rfl

/-- Claim C4, amended: for every menu, `add_separator` appends exactly
one node whose id is the reserved separator id
`MENU_ID_SEPARATOR = 0xFFFFFFFF`; the node is enabled
(`enabled == true`), inherited from `MenuItem::default()`. -/
theorem add_separator_appends_separator_node (m : Menu) :
    (m.add_separator).internal.items.map (fun i => (i.id, i.enabled))
      = m.internal.items.map (fun i => (i.id, i.enabled))
          ++ [(MENU_ID_SEPARATOR, true)] := by
  obtain ⟨pm⟩ := m
  cases pm with
  | mk n its h c =>
      simp [Menu.add_separator, Menu.add_menu_item, Menu.next_item_handle,
        MenuItem.default, PosixMenu.items, PosixMenu.name, PosixMenu.handle,
        PosixMenu.item_counter]

/-- Claim C5: `add_sub_menu(name, other_menu)` appends exactly one node
whose `sub_menu` field is the deep copy of `other_menu`'s tree at call
time; for any sequence of subsequent operations applied to the other
menu, as long as they actually change it, the stored snapshot differs
from the mutated menu — edits do not propagate into the inserted node. -/
theorem add_sub_menu_deep_copies (m1 : Menu) (name : String) (m2 : Menu)
    (ops : List MenuOp) :
    (m1.add_sub_menu name m2).internal.items.map (fun i => i.sub_menu)
      = m1.internal.items.map (fun i => i.sub_menu) ++ [some m2.internal]
    ∧ ((m2.applyOps ops).internal ≠ m2.internal →
        (m1.add_sub_menu name m2).internal.items.getLast?.map (fun i => i.sub_menu)
          ≠ some (some (m2.applyOps ops).internal)) := by
  obtain ⟨pm⟩ := m1
  cases pm with
  | mk n its h c =>
      constructor
      · simp [Menu.add_sub_menu, Menu.next_item_handle, PosixMenu.items,
          PosixMenu.name, PosixMenu.handle, PosixMenu.item_counter]
      · intro hne hEq
        simp only [Menu.add_sub_menu, Menu.next_item_handle, PosixMenu.items,
          PosixMenu.name, PosixMenu.handle, PosixMenu.item_counter,
          List.getLast?_concat, Option.map_some] at hEq
        exact hne (Option.some.inj (Option.some.inj hEq)).symm

/-- Witness for C5 at concrete inputs: menu "A", sub-menu "B", then one
later insertion into "B"; the node stored in "A" does not track it. -/
theorem add_sub_menu_deep_copies_witness :
    (c5_m1.add_sub_menu "S" c5_m2).internal.items.getLast?.map (fun i => i.sub_menu)
      ≠ some (some (c5_m2.applyOps c5_ops).internal) :=
  (add_sub_menu_deep_copies c5_m1 "S" c5_m2 c5_ops).2 (by
    intro h
    exact absurd (congrArg (fun p => p.items.length) h) (by decide))

/-- Claim C6: for every backend, name and size, `Window::new` with
`transparency == true` and `borderless == false` returns
`Err(Error::WindowCreate(..))` eagerly, without consulting the platform
backend at all (the result is independent of `imp_new`). -/
theorem window_new_rejects_transparency_without_borderless {α : Type}
    (imp_new : String → Nat → Nat → WindowOptions → Except Error α)
    (name : String) (width height : Nat) (opts : WindowOptions)
    (ht : opts.transparency = true) (hb : opts.borderless = false) :
    Window.new imp_new name width height opts
      = .error (.WindowCreate "Window transparency requires the borderless property") := by
  simp [Window.new, ht, hb]

/-- Witness for C6: a concrete always-succeeding backend still never
gets to run; the options are the defaults with `transparency: true`. -/
theorem window_new_rejects_witness :
    c6_opts.transparency = true ∧ c6_opts.borderless = false
    ∧ Window.new c6_imp_new "Test" 640 400 c6_opts
        = .error (.WindowCreate "Window transparency requires the borderless property") :=
  ⟨rfl, rfl,
    window_new_rejects_transparency_without_borderless c6_imp_new "Test" 640 400 c6_opts
      rfl rfl⟩

/-- Claim C7: `add_item(name, id)` only creates a detached builder
holding the menu — the menu it carries is the unmodified original, so
nothing has been inserted; `build()` on a builder whose backing menu is
absent returns `MenuItemHandle(0)` and inserts nothing, signalling no
error; `build()` on the intact builder inserts exactly one item. -/
theorem add_item_detached_build_inserts (m : Menu) (name : String)
    (id : Nat) (mi : MenuItem) :
    (m.add_item name id).menu = some m
    ∧ (mi.menu = none → mi.build = (⟨0⟩, none))
    ∧ ((m.add_item name id).build).2.map (fun m2 => m2.internal.items.length)
        = some (m.internal.items.length + 1) := by
  refine ⟨rfl, ?_, ?_⟩
  · intro h
    simp [MenuItem.build, h]
  · obtain ⟨pm⟩ := m
    cases pm with
    | mk n its h c =>
        simp [Menu.add_item, MenuItem.build, MenuItem.clone, MenuItem.default,
          Menu.add_menu_item, Menu.next_item_handle, PosixMenu.items,
          PosixMenu.name, PosixMenu.handle, PosixMenu.item_counter]

/-- Witness for C7 at concrete inputs: a fresh menu "w", the builder
`add_item("x", 5)`, and the default (detached) builder. -/
theorem add_item_detached_build_inserts_witness :
    (c7_m.add_item "x" 5).menu = some c7_m
    ∧ MenuItem.default.build = (⟨0⟩, none)
    ∧ ((c7_m.add_item "x" 5).build).2.map (fun m2 => m2.internal.items.length)
        = some 1 := by
  obtain ⟨h1, h2, h3⟩ := add_item_detached_build_inserts c7_m "x" 5 MenuItem.default
  exact ⟨h1, h2 rfl, h3⟩

/-- Claim C8: `Modifiers` is a bit-set over exactly SHIFT, CTRL, ALT,
LOGO, which are pairwise disjoint nonzero bit patterns; each predicate
commutes with union (it holds on a union iff it holds on one operand)
and holds exactly when the set intersects the corresponding flag. -/
theorem modifiers_bitset_algebra :
    (Modifiers.SHIFT.bits ≠ 0 ∧ Modifiers.CTRL.bits ≠ 0
      ∧ Modifiers.ALT.bits ≠ 0 ∧ Modifiers.LOGO.bits ≠ 0)
    ∧ (Modifiers.SHIFT.bits &&& Modifiers.CTRL.bits = 0
      ∧ Modifiers.SHIFT.bits &&& Modifiers.ALT.bits = 0
      ∧ Modifiers.SHIFT.bits &&& Modifiers.LOGO.bits = 0
      ∧ Modifiers.CTRL.bits &&& Modifiers.ALT.bits = 0
      ∧ Modifiers.CTRL.bits &&& Modifiers.LOGO.bits = 0
      ∧ Modifiers.ALT.bits &&& Modifiers.LOGO.bits = 0)
    ∧ (∀ m1 m2 : Modifiers,
        (m1.union m2).shift = (m1.shift || m2.shift)
        ∧ (m1.union m2).ctrl = (m1.ctrl || m2.ctrl)
        ∧ (m1.union m2).alt = (m1.alt || m2.alt)
        ∧ (m1.union m2).logo = (m1.logo || m2.logo))
    ∧ (∀ m : Modifiers,
        m.shift = m.intersects Modifiers.SHIFT
        ∧ m.ctrl = m.intersects Modifiers.CTRL
        ∧ m.alt = m.intersects Modifiers.ALT
        ∧ m.logo = m.intersects Modifiers.LOGO) := by
  refine ⟨by decide, by decide, ?_, fun m => ⟨rfl, rfl, rfl, rfl⟩⟩
  intro m1 m2
  refine ⟨?_, ?_, ?_, ?_⟩ <;>
    simp [Modifiers.shift, Modifiers.ctrl, Modifiers.alt, Modifiers.logo,
      Modifiers.intersects, Modifiers.union, lor_land_distrib, lor_bne_zero]

/-- Claim C9: `set_background_color` clamps each channel into
`[0, 255]` (as `min · 255` on the unsigned inputs — clamped, not
wrapped or rejected) and passes `(r << 16) | (g << 8) | b` to the
backend; the packed value never exceeds `0xFFFFFF`, so the `as u32`
cast is lossless and the alpha byte is zero. -/
theorem set_background_color_clamps_and_packs (red green blue : Nat) :
    set_background_color_packed red green blue
      = (((min red 255) <<< 16) ||| ((min green 255) <<< 8)) ||| (min blue 255)
    ∧ set_background_color_packed red green blue ≤ 0xFFFFFF
    ∧ clamp 0 red 255 = min red 255 := by
  have h1 : (clamp 0 red 255) <<< 16 < 2 ^ 24 := by
    rw [Nat.shiftLeft_eq]
    calc clamp 0 red 255 * 2 ^ 16
        ≤ 255 * 2 ^ 16 := Nat.mul_le_mul_right _ (clamp_le_255 red)
      _ < 2 ^ 24 := by norm_num
  have h2 : (clamp 0 green 255) <<< 8 < 2 ^ 24 := by
    rw [Nat.shiftLeft_eq]
    calc clamp 0 green 255 * 2 ^ 8
        ≤ 255 * 2 ^ 8 := Nat.mul_le_mul_right _ (clamp_le_255 green)
      _ < 2 ^ 24 := by norm_num
  have h3 : clamp 0 blue 255 < 2 ^ 24 :=
    Nat.lt_of_le_of_lt (clamp_le_255 blue) (by norm_num)
  have hlt : (((clamp 0 red 255) <<< 16) ||| ((clamp 0 green 255) <<< 8))
      ||| (clamp 0 blue 255) < 2 ^ 24 :=
    Nat.or_lt_two_pow (Nat.or_lt_two_pow h1 h2) h3
  have hmod : set_background_color_packed red green blue
      = (((clamp 0 red 255) <<< 16) ||| ((clamp 0 green 255) <<< 8))
          ||| (clamp 0 blue 255) := by
    unfold set_background_color_packed
    exact Nat.mod_eq_of_lt (Nat.lt_trans hlt (by norm_num))
  refine ⟨?_, ?_, clamp_eq_min red⟩
  · rw [hmod, clamp_eq_min, clamp_eq_min, clamp_eq_min]
  · rw [hmod]
    omega

/-- Claim C10: `build()` on a builder whose `menu` field is `None`
returns `MenuItemHandle(0)` and inserts nothing, and the first
`add_menu_item` on any freshly created menu also returns
`MenuItemHandle(0)` — the sentinel is indistinguishable from that
genuine first handle. -/
theorem detached_build_handle_collides_with_first (mi : MenuItem)
    (name : String) (m : Menu) (item : MenuItem) :
    (mi.menu = none → mi.build = (⟨0⟩, none))
    ∧ (Menu.new name = .ok m → (m.add_menu_item item).1 = ⟨0⟩) := by
  constructor
  · intro h
    simp [MenuItem.build, h]
  · intro h
    simp only [Menu.new, Except.ok.injEq] at h
    subst h
    rfl

/-- Witness for C10 at concrete inputs: the default (detached) builder
and the fresh menu "w". -/
theorem detached_build_handle_collides_witness :
    MenuItem.default.build = (⟨0⟩, none)
    ∧ (c10_m.add_menu_item MenuItem.default).1 = (⟨0⟩ : MenuItemHandle) := by
  obtain ⟨h1, h2⟩ :=
    detached_build_handle_collides_with_first MenuItem.default "w" c10_m MenuItem.default
  exact ⟨h1 rfl, h2 rfl⟩

end Minifb
